import Mathlib

/-!
# Verification of the gesture classification and temporal confirmation engine

A shallow embedding, in Lean 4, of the gesture engine of the `gest-ai`
repository, together with theorems settling the frozen claims about it.

Sources embedded here:
* `src/src/utils/gestureClassifier.ts` — the current static single-hand
  classifier and the relational two-hand classifier
  (namespace `GestureClassifier`).
* `src/unnamed/part_005` — an observed revision of the same class that
  additionally contains the robust Fist rule, the public `distance` helper
  and the palm-normal computation (namespace `GestureClassifierP5`).
* `src/src/hooks/useHandDetection.ts` — the per-frame processing of the
  detector results: per-label history ring buffer, the two-hand temporal
  rules (clap / namaste / cross hands / raise both hands), the single-hand
  wave / raise-hand upgrade, and the debounce timers (namespace `Hook`).

Modelling conventions:
* Landmark coordinates are rationals (`ℚ`); the source's `Math.sqrt`
  distances live in `ℝ` via `Real.sqrt`, so rule thresholds compare real
  numbers exactly as the source compares floats.
* JavaScript `undefined`/`NaN` propagation matters in one place: the hook
  passes 2-D palm-center objects (no `z` field) into the 3-D distance
  function, where `undefined - undefined` is `NaN`, and every comparison
  with `NaN` is false.  A JS number that may be `NaN` is modelled as an
  `Option`, with `none` standing for `NaN`, and the comparisons used by the
  hook (`jsLt`, `jsSubGt`) are false on `none`.
* The debounce timers (`setTimeout`/`clearTimeout`) are modelled as a
  discrete-event machine over millisecond timestamps: timers due at or
  before an incoming frame fire before the frame is processed, in
  chronological order; on a tie the cooldown-reset timer (scheduled
  earlier, since the cooldown window exceeds the stability window) fires
  before the stability timer.
-/

/-- One of the 21 tracked 3-D hand landmarks (normalized image coordinates). -/
structure HandLandmark where
  x : ℚ
  y : ℚ
  z : ℚ
deriving DecidableEq, Repr

/-- A gesture candidate/event: `{gesture, confidence, timestamp}` as produced
by the classifiers (`Date.now()` is passed in as `timestamp`). -/
structure GestureDetection where
  gesture : String
  confidence : ℚ
  timestamp : Nat
deriving DecidableEq, Repr

/-- One entry of `multiHandedness`: `{index, score, label}`. -/
structure Handedness where
  index : Nat
  score : ℚ
  label : String
deriving DecidableEq, Repr

/-- Unchecked JS array indexing `landmarks[i]`, totalized with the origin
landmark as default (the sources index only after a length-21 check, or on
adapter-guaranteed 21-point hands). -/
def nth (lm : List HandLandmark) (i : Nat) : HandLandmark :=
  lm.getD i ⟨0, 0, 0⟩

/-- Squared Euclidean distance of two landmarks (the radicand of
`calculateDistance`); rational, hence decidable to compare. -/
def sqDist (p q : HandLandmark) : ℚ :=
  (p.x - q.x) ^ 2 + (p.y - q.y) ^ 2 + (p.z - q.z) ^ 2

namespace GestureClassifier

/-- `GestureClassifier.calculateDistance` of `src/src/utils/gestureClassifier.ts`:
`Math.sqrt((x1-x2)^2 + (y1-y2)^2 + (z1-z2)^2)`. -/
noncomputable def calculateDistance (p q : HandLandmark) : ℝ :=
  Real.sqrt (sqDist p q : ℚ)

/-- `isFingerExtended`: each finger is extended when its tip's `y` is less
than its PIP's `y`. -/
def isFingerExtended (lm : List HandLandmark) (tips pips : List Nat) : List Bool :=
  (tips.zip pips).map fun tp => decide ((nth lm tp.1).y < (nth lm tp.2).y)

/-- `isThumbExtended`: the thumb is extended when the tip (4) is further from
the wrist (0) than the MCP (2). -/
noncomputable def isThumbExtended (lm : List HandLandmark) : Prop :=
  calculateDistance (nth lm 0) (nth lm 4) > calculateDistance (nth lm 0) (nth lm 2)

/-- The local `fingersExtended` array of `classifyGesture`:
tips `[8,12,16,20]` against PIPs `[6,10,14,18]`. -/
def fingersExtended (lm : List HandLandmark) : List Bool :=
  isFingerExtended lm [8, 12, 16, 20] [6, 10, 14, 18]

open Classical

/-- `extendedCount = fingersExtended.filter(Boolean).length + (thumbExtended ? 1 : 0)`. -/
noncomputable def extendedCount (lm : List HandLandmark) : Nat :=
  ((fingersExtended lm).filter id).length + (if isThumbExtended lm then 1 else 0)

/-- The body of the Pointing branch (`fingersExtended[0] && extendedCount === 1`):
its inner guards `return null` without falling through to later rules. -/
noncomputable def pointingBody (now : Nat) (lm : List HandLandmark) : Option GestureDetection :=
  let indexTip := nth lm 8
  let indexPip := nth lm 6
  let wrist := nth lm 0
  -- Very relaxed index extension (tip y < pip y + 0.1)
  if ¬(indexTip.y < indexPip.y + 0.1) then none
  else
    -- `otherFingersMostlyCurled = !(middleExtended && ringExtended && pinkyExtended)`;
    -- `if (!otherFingersMostlyCurled) return null`
    let middleExtended := (nth lm 12).y < (nth lm 10).y + 0.1
    let ringExtended := (nth lm 16).y < (nth lm 14).y + 0.1
    let pinkyExtended := (nth lm 20).y < (nth lm 18).y + 0.1
    if middleExtended ∧ ringExtended ∧ pinkyExtended then none
    else
      -- (`pointingForward` is computed but its check is commented out in the source)
      let indexLength := calculateDistance wrist indexTip
      if indexLength < 0.03 ∨ indexLength > 0.5 then none
      else some ⟨"Pointing", 0.9, now⟩

/-- A 3-D vector of rationals (the finger direction vectors of the Victory rule). -/
structure Vec3 where
  x : ℚ
  y : ℚ
  z : ℚ

/-- The body of the Victory branch
(`fingersExtended[0] && fingersExtended[1] && !fingersExtended[2] &&
!fingersExtended[3] && !thumbExtended && extendedCount === 2`). -/
noncomputable def victoryBody (now : Nat) (lm : List HandLandmark) : Option GestureDetection :=
  let indexTip := nth lm 8
  let middleTip := nth lm 12
  let indexPip := nth lm 6
  let middlePip := nth lm 10
  let wrist := nth lm 0
  let indexMcp := nth lm 5
  let middleMcp := nth lm 9
  let indexDist := calculateDistance indexTip indexPip
  let indexSegmentLen := calculateDistance indexMcp indexPip
  let middleDist := calculateDistance middleTip middlePip
  let middleSegmentLen := calculateDistance middleMcp middlePip
  -- distance-based 98%-straightening test
  if ¬(indexDist > indexSegmentLen * 0.98) ∨ ¬(middleDist > middleSegmentLen * 0.98) then none
  else if ¬(wrist.y > max indexTip.y middleTip.y - 0.02) then none
  else if ¬(|indexTip.z| < 0.12 ∧ |middleTip.z| < 0.12) then none
  else if calculateDistance indexTip middleTip < 0.008 then none
  else
    let indexLength := calculateDistance wrist indexTip
    let middleLength := calculateDistance wrist middleTip
    if indexLength < 0.08 ∨ middleLength < 0.08 ∨ indexLength > 0.38 ∨ middleLength > 0.38 then
      none
    else
      let indexVec : Vec3 := ⟨indexTip.x - indexMcp.x, indexTip.y - indexMcp.y, indexTip.z - indexMcp.z⟩
      let middleVec : Vec3 := ⟨middleTip.x - middleMcp.x, middleTip.y - middleMcp.y, middleTip.z - middleMcp.z⟩
      let indexLen : ℝ := Real.sqrt ((indexVec.x ^ 2 + indexVec.y ^ 2 + indexVec.z ^ 2 : ℚ))
      let middleLen : ℝ := Real.sqrt ((middleVec.x ^ 2 + middleVec.y ^ 2 + middleVec.z ^ 2 : ℚ))
      if indexLen = 0 ∨ middleLen = 0 then none
      else
        let dot : ℝ :=
          ((indexVec.x : ℝ) / indexLen) * ((middleVec.x : ℝ) / middleLen) +
          ((indexVec.y : ℝ) / indexLen) * ((middleVec.y : ℝ) / middleLen) +
          ((indexVec.z : ℝ) / indexLen) * ((middleVec.z : ℝ) / middleLen)
        let angle : ℝ := Real.arccos (max (-1) (min 1 dot)) * (180 / Real.pi)
        if angle < 45 ∨ angle > 125 then none
        else if |indexTip.x - middleTip.x| < 0.005 then none
        else
          -- right-hand orientation: index tip strictly left of middle tip
          let isRightHand := wrist.x > 0.5
          if ¬(if isRightHand then indexTip.x < middleTip.x else indexTip.x > middleTip.x) then
            none
          else some ⟨"Victory", 0.95, now⟩

/-- `static classifyGesture(landmarks)` of `src/src/utils/gestureClassifier.ts`.
The `!landmarks` null-guard of the source cannot fire on a Lean list, so only
the `landmarks.length !== 21` test remains. -/
noncomputable def classifyGesture (now : Nat) (landmarks : List HandLandmark) :
    Option GestureDetection :=
  if landmarks.length ≠ 21 then none
  else
    -- Thumbs Up - only thumb extended
    if isThumbExtended landmarks ∧ extendedCount landmarks = 1 then
      some ⟨"Thumbs-Up", 0.9, now⟩
    -- Pointing - index finger extended, others curled
    else if (fingersExtended landmarks).getD 0 false = true ∧ extendedCount landmarks = 1 then
      pointingBody now landmarks
    -- Victory (Peace)
    else if (fingersExtended landmarks).getD 0 false = true ∧
        (fingersExtended landmarks).getD 1 false = true ∧
        (fingersExtended landmarks).getD 2 false = false ∧
        (fingersExtended landmarks).getD 3 false = false ∧
        ¬isThumbExtended landmarks ∧ extendedCount landmarks = 2 then
      victoryBody now landmarks
    -- Open Palm - all fingers extended (right/general hand)
    else if extendedCount landmarks = 5 ∧ (nth landmarks 0).x ≥ 0.5 then
      some ⟨"Open Palm", 0.95, now⟩
    -- Stop - all fingers extended on left hand only
    else if extendedCount landmarks = 5 ∧ (nth landmarks 0).x < 0.5 then
      some ⟨"Stop", 0.95, now⟩
    -- Wave detection - similar to open palm but with movement
    else if extendedCount landmarks ≥ 4 then
      some ⟨"Wave", 0.8, now⟩
    else none

/-- The `leftPinkyOnly` / `rightPinkyOnly` digit pattern of
`classifyTwoHandGesture`: pinky extended, index/middle/ring not. -/
def pinkyOnlyHand (lm : List HandLandmark) : Prop :=
  (isFingerExtended lm [8, 12, 16, 20] [6, 10, 14, 18]).getD 3 false = true ∧
  (isFingerExtended lm [8, 12, 16, 20] [6, 10, 14, 18]).getD 0 false = false ∧
  (isFingerExtended lm [8, 12, 16, 20] [6, 10, 14, 18]).getD 1 false = false ∧
  (isFingerExtended lm [8, 12, 16, 20] [6, 10, 14, 18]).getD 2 false = false

instance (lm : List HandLandmark) : Decidable (pinkyOnlyHand lm) := by
  unfold pinkyOnlyHand; infer_instance

/-- `static classifyTwoHandGesture(leftHand, rightHand, handedness?)` of
`src/src/utils/gestureClassifier.ts`. -/
noncomputable def classifyTwoHandGesture (now : Nat) (leftHand rightHand : List HandLandmark)
    (handedness : Option (List Handedness)) : Option GestureDetection :=
  if leftHand.length ≠ 21 ∨ rightHand.length ≠ 21 then none
  -- Only pinky extended on both hands, others curled; otherwise `return null`
  else if ¬(pinkyOnlyHand leftHand ∧ pinkyOnlyHand rightHand) then none
  else
    let leftWrist := nth leftHand 0
    let rightWrist := nth rightHand 0
    let pinkyDistance := calculateDistance (nth leftHand 20) (nth rightHand 20)
    let wristDistance := calculateDistance leftWrist rightWrist
    let heightDifference : ℚ := |leftWrist.y - rightWrist.y|
    -- Namaste - pinkies touching, wrists close, similar height
    if pinkyDistance < 0.1 ∧ wristDistance < 0.2 ∧ heightDifference < 0.1 then
      some ⟨"Namaste", 0.9, now⟩
    else
      -- Cross Hands - close wrists, vertically aligned, swapped handedness labels
      let wristCrossDistance : ℚ := |leftWrist.x - rightWrist.x|
      let verticalAlignment := |leftWrist.y - rightWrist.y| < 0.15
      match handedness with
      | some hd =>
          if wristCrossDistance < 0.3 ∧ verticalAlignment then
            if (hd.getD 0 ⟨0, 0, ""⟩).label = "Right" ∧ (hd.getD 1 ⟨0, 0, ""⟩).label = "Left" then
              some ⟨"Cross Hands", 0.85, now⟩
            else none
          else none
      | none => none

end GestureClassifier

/-- A point as the hook hands it to `GestureClassifier.distance`: `x`, `y`
and an optional `z` (`z` is absent/`undefined` on the hook's 2-D
palm-center and wrist records). -/
structure JsPoint where
  x : ℚ
  y : ℚ
  z : Option ℚ
deriving DecidableEq, Repr

/-- Embed a full 3-D landmark as an argument to `distance` (its `z` is present). -/
def HandLandmark.toJs (p : HandLandmark) : JsPoint := ⟨p.x, p.y, some p.z⟩

namespace GestureClassifierP5

/-!
The `src/unnamed/part_005` revision of `GestureClassifier`.  Its
`calculateDistance`, `isFingerExtended` and `isThumbExtended` are textually
identical to the current revision's, so they are shared from the
`GestureClassifier` namespace.
-/

open GestureClassifier (calculateDistance isThumbExtended fingersExtended extendedCount)

open Classical

/-- `static distance(a, b)`: casts both points to `HandLandmark` and calls
`calculateDistance`.  When a point has no `z` field the JS subtraction
`point1.z - point2.z` is `NaN`, which poisons the sum and the square root;
a NaN result is modelled as `none`. -/
noncomputable def distance (p q : JsPoint) : Option ℝ :=
  match p.z, q.z with
  | some pz, some qz =>
      some (Real.sqrt (((p.x - q.x) ^ 2 + (p.y - q.y) ^ 2 + (pz - qz) ^ 2 : ℚ)))
  | _, _ => none

/-- A 3-D real vector (the normalized palm normal). -/
structure RVec3 where
  x : ℝ
  y : ℝ
  z : ℝ

/-- `computePalmNormalFrom(landmarks)`: unit normal of the plane spanned by
wrist→index-MCP and wrist→pinky-MCP, via cross product; the `(v.z || 0)`
guards are identities on rational coordinates, and `Math.sqrt(...) || 1`
replaces a zero length by 1. -/
noncomputable def computePalmNormalFrom (lm : List HandLandmark) : RVec3 :=
  let a := nth lm 0
  let b := nth lm 5
  let c := nth lm 17
  let nx : ℚ := (b.y - a.y) * (c.z - a.z) - (b.z - a.z) * (c.y - a.y)
  let ny : ℚ := (b.z - a.z) * (c.x - a.x) - (b.x - a.x) * (c.z - a.z)
  let nz : ℚ := (b.x - a.x) * (c.y - a.y) - (b.y - a.y) * (c.x - a.x)
  let len0 : ℝ := Real.sqrt ((nx ^ 2 + ny ^ 2 + nz ^ 2 : ℚ))
  let len : ℝ := if len0 = 0 then 1 else len0
  ⟨nx / len, ny / len, nz / len⟩

/-- `handWidth`: the index-MCP (5) to pinky-MCP (17) span, `|| 1` replacing a
zero width by 1. -/
noncomputable def handWidth (lm : List HandLandmark) : ℝ :=
  let d := calculateDistance (nth lm 5) (nth lm 17)
  if d = 0 then 1 else d

/-- `tipDistances`: distance of every fingertip (`[4,8,12,16,20]`) to the
palm reference `landmarks[9]`. -/
noncomputable def tipDistances (lm : List HandLandmark) : List ℝ :=
  [4, 8, 12, 16, 20].map fun i => calculateDistance (nth lm i) (nth lm 9)

/-- `avgTipToPalm = tipDistances.reduce(+) / tipDistances.length`. -/
noncomputable def avgTipToPalm (lm : List HandLandmark) : ℝ :=
  (tipDistances lm).sum / ((tipDistances lm).length : ℝ)

/-- The `i < j` pairs of the double loop over the five fingertips, in loop order. -/
def tipPairs : List (Nat × Nat) :=
  [(4, 8), (4, 12), (4, 16), (4, 20), (8, 12), (8, 16), (8, 20), (12, 16), (12, 20), (16, 20)]

/-- `maxTipSpread`: the running maximum (starting at 0) of the pairwise
fingertip distances. -/
noncomputable def maxTipSpread (lm : List HandLandmark) : ℝ :=
  (tipPairs.map fun ij => calculateDistance (nth lm ij.1) (nth lm ij.2)).foldl max 0

/-- `curledCount`: fingers whose tip sits at or below its proximal joint
(`tip.y >= pip.y - 0.01`), over tips `[4,8,12,16,20]` and joints `[2,6,10,14,18]`. -/
def curledCount (lm : List HandLandmark) : Nat :=
  (([4, 8, 12, 16, 20].zip [2, 6, 10, 14, 18]).filter fun tp =>
    decide ((nth lm tp.1).y ≥ (nth lm tp.2).y - 0.01)).length

/-- `avgTipToPalmNorm = avgTipToPalm / handWidth`. -/
noncomputable def avgTipToPalmNorm (lm : List HandLandmark) : ℝ :=
  avgTipToPalm lm / handWidth lm

/-- `maxTipSpreadNorm = maxTipSpread / handWidth`. -/
noncomputable def maxTipSpreadNorm (lm : List HandLandmark) : ℝ :=
  maxTipSpread lm / handWidth lm

/-- `static classifyGesture(landmarks)` of the `part_005` revision: the robust
Fist rule first, then Thumbs-Up, Pointing, Victory, Open-Palm/Backhand
(by palm-normal orientation), Wave. -/
noncomputable def classifyGesture (now : Nat) (landmarks : List HandLandmark) :
    Option GestureDetection :=
  if landmarks.length ≠ 21 then none
  else
    -- (the source hoists `palmNormal = computePalmNormal()` into a local used
    -- only by the Open-Palm/Backhand branch below)
    -- Fist detection (robust): most fingers curled, tips close to palm, tips not spread
    if curledCount landmarks ≥ 4 ∧ avgTipToPalmNorm landmarks < 0.6 ∧
        maxTipSpreadNorm landmarks < 0.45 then
      some ⟨"Fist", 0.96, now⟩
    -- Thumbs Up - only thumb extended
    else if isThumbExtended landmarks ∧ extendedCount landmarks = 1 then
      some ⟨"Thumbs-Up", 0.9, now⟩
    -- Pointing - only index finger extended
    else if (fingersExtended landmarks).getD 0 false = true ∧ extendedCount landmarks = 1 then
      some ⟨"Pointing", 0.9, now⟩
    -- Victory (Peace) - index and middle finger extended
    else if (fingersExtended landmarks).getD 0 false = true ∧
        (fingersExtended landmarks).getD 1 false = true ∧ extendedCount landmarks = 2 then
      some ⟨"Victory", 0.9, now⟩
    -- Open Palm - all fingers extended; Backhand when the palm faces away
    else if extendedCount landmarks = 5 then
      if (computePalmNormalFrom landmarks).z < -0.3 then some ⟨"Backhand", 0.9, now⟩
      else some ⟨"Open Palm", 0.95, now⟩
    -- Wave - similar to open palm but with movement
    else if extendedCount landmarks ≥ 4 then some ⟨"Wave", 0.8, now⟩
    else none

/-- Uniform scaling of every landmark coordinate by `s`. -/
def scaleHand (s : ℚ) (lm : List HandLandmark) : List HandLandmark :=
  lm.map fun p => ⟨s * p.x, s * p.y, s * p.z⟩

end GestureClassifierP5

namespace Hook

/-!
The per-frame processing of `src/src/hooks/useHandDetection.ts`
(`processResults` and the gesture debounce of lines 191-199).  The hook
calls `GestureClassifier.distance`, which only the `part_005` revision of
the classifier defines, hence `GestureClassifierP5.distance` below.
-/

open Classical

/-- A 2-D `{x, y}` record (the hook's wrist and palm-center values). -/
structure Point2 where
  x : ℚ
  y : ℚ
deriving DecidableEq, Repr, Inhabited

/-- A 2-D record passed to `GestureClassifier.distance` has no `z` field. -/
def Point2.toJs (p : Point2) : JsPoint := ⟨p.x, p.y, none⟩

/-- One history sample `{ts, wrist, palmCenter}`. -/
structure Sample where
  ts : Nat
  wrist : Point2
  palmCenter : Point2
deriving DecidableEq, Repr, Inhabited

/-- The hook's `palmCenter` helper: mean of the base knuckles 5, 9, 13, 17
(x and y only — the result carries no `z`). -/
def palmCenter (lm : List HandLandmark) : Point2 :=
  ⟨((nth lm 5).x + (nth lm 9).x + (nth lm 13).x + (nth lm 17).x) / 4,
   ((nth lm 5).y + (nth lm 9).y + (nth lm 13).y + (nth lm 17).y) / 4⟩

/-- The per-label history update:
`history.push({ts, wrist, palmCenter}); if (history.length > 30) history.shift()`. -/
def pushSample (h : List Sample) (s : Sample) : List Sample :=
  let h' := h ++ [s]
  if h'.length > 30 then h'.tail else h'

/-- The history of one label after a run of observed frames, starting empty. -/
def runHistory (samples : List Sample) : List Sample :=
  samples.foldl pushSample []

/-- JS `v < c` where `v` may be `NaN` (`none`): every comparison with `NaN`
is false. -/
def jsLt : Option ℝ → ℝ → Prop
  | none, _ => False
  | some v, c => v < c

/-- JS `a - b > c` where `a` or `b` may be `NaN`: false when either is. -/
def jsSubGt : Option ℝ → Option ℝ → ℝ → Prop
  | some a, some b, c => a - b > c
  | none, _, _ => False
  | some _, none, _ => False

/-- `lastAudioClapRef.current && (now - lastAudioClapRef.current) < 800`
(the ref starts at `0`, which is falsy). -/
def audioConfirm (now lastAudioClap : Nat) : Prop :=
  lastAudioClap ≠ 0 ∧ now - lastAudioClap < 800

/-- `palmDist = GestureClassifier.distance(aPalm, bPalm)` on the 2-D palm
centers of the current landmarks. -/
noncomputable def palmDist (a b : List HandLandmark) : Option ℝ :=
  GestureClassifierP5.distance (palmCenter a).toJs (palmCenter b).toJs

/-- The clap guard (hook lines 109-123): both labels have at least 5 history
samples, the palm centers closed by more than 0.12 since the fifth-from-last
sample, the current palm distance is below 0.12, and either an audio clap was
heard within 800 ms or no audio detector is attached
(`audioConfirm || !audioClapRef.current`). -/
noncomputable def clapCond (now : Nat) (a b : List HandLandmark) (ah bh : List Sample)
    (lastAudioClap : Nat) (audioAttached : Bool) : Prop :=
  5 ≤ ah.length ∧ 5 ≤ bh.length ∧
  jsSubGt
    (GestureClassifierP5.distance (ah.getD (ah.length - 5) default).palmCenter.toJs
      (bh.getD (bh.length - 5) default).palmCenter.toJs)
    (palmDist a b) 0.12 ∧
  jsLt (palmDist a b) 0.12 ∧
  (audioConfirm now lastAudioClap ∨ audioAttached = false)

/-- The hook's namaste guard (lines 126-136): palms close, wrists close,
middle fingertips close. -/
noncomputable def namasteCond (a b : List HandLandmark) : Prop :=
  jsLt (palmDist a b) 0.14 ∧
  jsLt (GestureClassifierP5.distance (nth a 0).toJs (nth b 0).toJs) 0.18 ∧
  jsLt (GestureClassifierP5.distance (nth a 12).toJs (nth b 12).toJs) 0.08

/-- The hook's cross-hands guard (lines 139-143): `a[0].x > b[0].x + 0.02`. -/
def crossCond (a b : List HandLandmark) : Prop :=
  (nth a 0).x > (nth b 0).x + 0.02

instance (a b : List HandLandmark) : Decidable (crossCond a b) := by
  unfold crossCond; infer_instance

/-- One hand of the raise-both guard (lines 146-152):
wrist `y` above the middle knuckle's by the 0.02 margin. -/
def raisedCond (a : List HandLandmark) : Prop :=
  (nth a 0).y < (nth a 9).y - 0.02

instance (a : List HandLandmark) : Decidable (raisedCond a) := by
  unfold raisedCond; infer_instance

/-- The two-hand section of `processResults` (lines 100-153), evaluated when
exactly two labels are tracked: clap, then namaste, then cross hands, then
raise both hands; the histories `ah`/`bh` already include the current frame's
sample. -/
noncomputable def twoHandCandidate (now : Nat) (a b : List HandLandmark) (ah bh : List Sample)
    (lastAudioClap : Nat) (audioAttached : Bool) : Option GestureDetection :=
  if clapCond now a b ah bh lastAudioClap audioAttached then some ⟨"Clap", 0.97, now⟩
  else if namasteCond a b then some ⟨"Namaste", 0.95, now⟩
  else if crossCond a b then some ⟨"Cross Hands", 0.9, now⟩
  else if raisedCond a ∧ raisedCond b then some ⟨"Raise Both Hands", 0.9, now⟩
  else none

/-- The wave reversal counter (lines 164-167): for each `i ≥ 2`, counts sign
changes of consecutive differences of the wrist-x series. -/
def countReversals : List ℚ → Nat
  | a :: b :: c :: rest =>
      (if (c - b) * (b - a) < 0 then 1 else 0) + countReversals (b :: c :: rest)
  | _ => 0

/-- `xs.length ? Math.max(...xs) - Math.min(...xs) : 0`. -/
def amplitude (xs : List ℚ) : ℚ :=
  match xs with
  | [] => 0
  | x :: rest => rest.foldl max x - rest.foldl min x

/-- The single-hand branch of `processResults` for one tracked label
(lines 157-188): a static Open Palm upgrades to Wave on ≥ 2 wrist-x
reversals with amplitude > 0.06, else to Raise Hand when the last
(up to) 6 samples all have wrist y < 0.38 and at least 4 exist;
otherwise the static classification stands. -/
noncomputable def singleHandCandidate (now : Nat) (hist : List Sample)
    (lm : List HandLandmark) : Option GestureDetection :=
  match GestureClassifier.classifyGesture now lm with
  | none => none
  | some staticGuess =>
    if staticGuess.gesture = "Open Palm" then
      let xs := hist.map fun h => h.wrist.x
      if 2 ≤ countReversals xs ∧ amplitude xs > 0.06 then some ⟨"Wave", 0.92, now⟩
      else
        -- `hist.slice(-6)`
        let recent := hist.drop (hist.length - 6)
        if 4 ≤ recent.length ∧ recent.all (fun h => decide (h.wrist.y < 0.38)) then
          some ⟨"Raise Hand", 0.9, now⟩
        else some staticGuess
    else some staticGuess

/-!
### The debounce timers (hook lines 191-199)

`processResults` ends with:
on a frame whose candidate label differs from `lastGestureRef.current`
(initially `""`), clear the previous stability timeout and start a new one
for `stabilityMs` (150 in the current hook, 200 in the `part_001` revision);
when it fires, the captured candidate is emitted, `lastGestureRef` is set to
its label, and an (uncancelled) reset timeout clears `lastGestureRef` after
`cooldownMs` (1800 here, 2000 in `part_001`).

The timers are modelled as a discrete-event machine: timers due at or before
an incoming frame fire, in chronological order, before the frame's candidate
is handled; on a tie the reset fires first (it was scheduled a whole
cooldown window earlier, and the cooldown exceeds the stability window).
-/

/-- The debounce state: `lastGestureRef` (`""` when cleared), the pending
stability timeout as `(fire time, captured label)`, and the fire times of
the pending cooldown resets (never cancelled, so several may coexist). -/
structure DState where
  lastGesture : String
  pending : Option (Nat × String)
  resets : List Nat
deriving DecidableEq, Repr

/-- The state at engine start. -/
def initState : DState := ⟨"", none, []⟩

/-- The earliest reset time due at or before `t`, if any. -/
def minDue (t : Nat) (rs : List Nat) : Option Nat :=
  (rs.filter (· ≤ t)).foldl
    (fun acc r => match acc with
      | none => some r
      | some a => some (min a r)) none

/-- Fire every timer due at or before `t`, in chronological order (reset
first on a tie).  Firing the stability timer emits `(fire time, label)`,
records the label as last-emitted and schedules a cooldown reset; firing a
reset clears the last-emitted label.  `fuel` bounds the fired timers;
`advanceTo` passes `resets.length + 2`: enough for every existing reset, the
pending timer, and the one reset the pending timer schedules. -/
def fireAux (cool : Nat) : Nat → DState → Nat → DState × List (Nat × String)
  | 0, s, _ => (s, [])
  | fuel + 1, s, t =>
    let dueR := minDue t s.resets
    let dueP : Option (Nat × String) :=
      match s.pending with
      | some fg => if fg.1 ≤ t then some fg else none
      | none => none
    match dueR, dueP with
    | none, none => (s, [])
    | some r, none => fireAux cool fuel ⟨"", s.pending, s.resets.erase r⟩ t
    | none, some fg =>
        let out := fireAux cool fuel ⟨fg.2, none, s.resets ++ [fg.1 + cool]⟩ t
        (out.1, (fg.1, fg.2) :: out.2)
    | some r, some fg =>
        if r ≤ fg.1 then fireAux cool fuel ⟨"", s.pending, s.resets.erase r⟩ t
        else
          let out := fireAux cool fuel ⟨fg.2, none, s.resets ++ [fg.1 + cool]⟩ t
          (out.1, (fg.1, fg.2) :: out.2)

/-- Let every timer due at or before `t` fire. -/
def advanceTo (cool : Nat) (s : DState) (t : Nat) : DState × List (Nat × String) :=
  fireAux cool (s.resets.length + 2) s t

/-- Process one frame `(time, candidate label?)`: fire due timers, then, when
the frame carries a candidate whose label differs from the last-emitted one,
clear the previous stability timeout and start a new one. -/
def frameStep (stab cool : Nat) (s : DState) (fr : Nat × Option String) :
    DState × List (Nat × String) :=
  let out := advanceTo cool s fr.1
  match fr.2 with
  | none => out
  | some g =>
      if g ≠ out.1.lastGesture then ({ out.1 with pending := some (fr.1 + stab, g) }, out.2)
      else out

/-- Run the machine over a time-ordered list of per-frame candidates. -/
def runFrames (stab cool : Nat) : DState → List (Nat × Option String) →
    DState × List (Nat × String)
  | s, [] => (s, [])
  | s, fr :: rest =>
      let out1 := frameStep stab cool s fr
      let out2 := runFrames stab cool out1.1 rest
      (out2.1, out1.2 ++ out2.2)

/-- All gesture events `(time, label)` emitted on a frame sequence processed
from engine start, including every timer due by `horizon`. -/
def debounceRun (stab cool : Nat) (frames : List (Nat × Option String)) (horizon : Nat) :
    List (Nat × String) :=
  let out := runFrames stab cool initState frames
  out.2 ++ (advanceTo cool out.1 horizon).2

end Hook

/-!
## Concrete inputs used to witness the theorems
-/

/-- 21 coincident landmarks: no finger is "extended" (every `tip.y < pip.y`
test fails), so in particular the pinky-only pattern fails. -/
def zeroHand : List HandLandmark := List.replicate 21 ⟨0, 0, 0⟩

/-- A right-half open palm: all four finger tips above their PIPs, thumb tip
further from the wrist than the thumb MCP, wrist at `x = 0.7`. -/
def openPalmHand : List HandLandmark :=
  [⟨0.7, 0.9, 0⟩,   -- 0 wrist
   ⟨0.68, 0.88, 0⟩, -- 1
   ⟨0.6, 0.8, 0⟩,   -- 2 thumb MCP
   ⟨0.55, 0.75, 0⟩, -- 3
   ⟨0.5, 0.7, 0⟩,   -- 4 thumb tip
   ⟨0.62, 0.6, 0⟩,  -- 5 index MCP
   ⟨0.62, 0.5, 0⟩,  -- 6 index PIP
   ⟨0.62, 0.45, 0⟩, -- 7
   ⟨0.62, 0.4, 0⟩,  -- 8 index tip
   ⟨0.67, 0.6, 0⟩,  -- 9 middle MCP
   ⟨0.67, 0.5, 0⟩,  -- 10 middle PIP
   ⟨0.67, 0.44, 0⟩, -- 11
   ⟨0.67, 0.38, 0⟩, -- 12 middle tip
   ⟨0.72, 0.6, 0⟩,  -- 13 ring MCP
   ⟨0.72, 0.5, 0⟩,  -- 14 ring PIP
   ⟨0.72, 0.45, 0⟩, -- 15
   ⟨0.72, 0.4, 0⟩,  -- 16 ring tip
   ⟨0.77, 0.62, 0⟩, -- 17 pinky MCP
   ⟨0.77, 0.55, 0⟩, -- 18 pinky PIP
   ⟨0.77, 0.5, 0⟩,  -- 19
   ⟨0.77, 0.45, 0⟩] -- 20 pinky tip

/-- A compact fist: every fingertip and its proximal joint share `y = 0.5`
(curled); tips and palm reference lie on the line `y = 0.5, z = 0`, so
every distance is an exact rational; knuckle span 0.2. -/
def fistHand : List HandLandmark :=
  [⟨0.5, 0.8, 0⟩,   -- 0 wrist
   ⟨0.5, 0.6, 0⟩,   -- 1
   ⟨0.52, 0.5, 0⟩,  -- 2 thumb MCP
   ⟨0.52, 0.5, 0⟩,  -- 3
   ⟨0.52, 0.5, 0⟩,  -- 4 thumb tip (0.02 from palm)
   ⟨0.4, 0.5, 0⟩,   -- 5 index MCP (span endpoint)
   ⟨0.48, 0.5, 0⟩,  -- 6 index PIP
   ⟨0.48, 0.5, 0⟩,  -- 7
   ⟨0.48, 0.5, 0⟩,  -- 8 index tip (0.02 from palm)
   ⟨0.5, 0.5, 0⟩,   -- 9 palm reference
   ⟨0.53, 0.5, 0⟩,  -- 10 middle PIP
   ⟨0.53, 0.5, 0⟩,  -- 11
   ⟨0.53, 0.5, 0⟩,  -- 12 middle tip (0.03 from palm)
   ⟨0.5, 0.5, 0⟩,   -- 13
   ⟨0.47, 0.5, 0⟩,  -- 14 ring PIP
   ⟨0.47, 0.5, 0⟩,  -- 15
   ⟨0.47, 0.5, 0⟩,  -- 16 ring tip (0.03 from palm)
   ⟨0.6, 0.5, 0⟩,   -- 17 pinky MCP (span endpoint)
   ⟨0.5, 0.5, 0⟩,   -- 18 pinky PIP
   ⟨0.5, 0.5, 0⟩,   -- 19
   ⟨0.5, 0.5, 0⟩]   -- 20 pinky tip (0 from palm)

/-- A wrist-x history oscillating 0.2 → 0.5 → 0.3 → 0.6: two direction
reversals, peak-to-peak amplitude 0.4. -/
def waveHist : List Hook.Sample :=
  [⟨0, ⟨0.2, 0.5⟩, ⟨0.5, 0.5⟩⟩,
   ⟨33, ⟨0.5, 0.5⟩, ⟨0.5, 0.5⟩⟩,
   ⟨66, ⟨0.3, 0.5⟩, ⟨0.5, 0.5⟩⟩,
   ⟨99, ⟨0.6, 0.5⟩, ⟨0.5, 0.5⟩⟩]

/-- Hand whose four base knuckles (hence its palm center) sit at `x = 0.46`. -/
def clapA : List HandLandmark := List.replicate 21 ⟨0.46, 0.5, 0⟩

/-- Hand whose palm center sits at `x = 0.54`: planar palm-center distance to
`clapA` is 0.08. -/
def clapB : List HandLandmark := List.replicate 21 ⟨0.54, 0.5, 0⟩

/-- Five history samples whose palm center is at `x = 0.2`. -/
def clapAh : List Hook.Sample := List.replicate 5 ⟨0, ⟨0.2, 0.5⟩, ⟨0.2, 0.5⟩⟩

/-- Five history samples whose palm center is at `x = 0.5`: the palm centers
were 0.30 apart five samples ago and are 0.08 apart now. -/
def clapBh : List Hook.Sample := List.replicate 5 ⟨0, ⟨0.5, 0.5⟩, ⟨0.5, 0.5⟩⟩

/-- Wrist at `x = 0.9`: with `crossB` the hook's cross-hands test holds. -/
def crossA : List HandLandmark := List.replicate 21 ⟨0.9, 0.5, 0⟩

/-- Wrist at `x = 0.1`. -/
def crossB : List HandLandmark := List.replicate 21 ⟨0.1, 0.5, 0⟩

/-- A hand whose wrist (`y = 0.2`) is above its middle knuckle (`y = 0.5`)
by more than the 0.02 margin. -/
def raiseA : List HandLandmark :=
  ⟨0.5, 0.2, 0⟩ :: List.replicate 20 ⟨0.5, 0.5, 0⟩

/-- A second raised hand, at `x = 0.6`. -/
def raiseB : List HandLandmark :=
  ⟨0.6, 0.2, 0⟩ :: List.replicate 20 ⟨0.6, 0.5, 0⟩

/-!
## Theorems

General helper lemmas first, then one theorem per claim (with its witness or
counterexample).
-/

theorem sqDist_nonneg (p q : HandLandmark) : 0 ≤ sqDist p q := by
  unfold sqDist; positivity

theorem calculateDistance_nonneg (p q : HandLandmark) :
    0 ≤ GestureClassifier.calculateDistance p q :=
  Real.sqrt_nonneg _

/-- The thumb-extension test compares square roots of nonnegative rationals,
so it is equivalent to comparing the squared distances. -/
theorem isThumbExtended_iff (lm : List HandLandmark) :
    GestureClassifier.isThumbExtended lm ↔
      sqDist (nth lm 0) (nth lm 2) < sqDist (nth lm 0) (nth lm 4) := by
  unfold GestureClassifier.isThumbExtended GestureClassifier.calculateDistance
  rw [gt_iff_lt, show ((sqDist (nth lm 0) (nth lm 2) : ℚ) : ℝ) =
    ((sqDist (nth lm 0) (nth lm 2) : ℚ) : ℝ) from rfl]
  constructor
  · intro h
    by_contra hle
    push_neg at hle
    have : (sqDist (nth lm 0) (nth lm 4) : ℚ) ≤ ((sqDist (nth lm 0) (nth lm 2) : ℚ) : ℝ) := by
      exact_mod_cast hle
    exact absurd (Real.sqrt_le_sqrt this) (not_le.mpr h)
  · intro h
    have h0 : (0:ℝ) ≤ ((sqDist (nth lm 0) (nth lm 2) : ℚ) : ℝ) := by
      exact_mod_cast sqDist_nonneg (nth lm 0) (nth lm 2)
    exact Real.sqrt_lt_sqrt h0 (by exact_mod_cast h)

/-- Evaluate a distance whose radicand is a perfect rational square. -/
theorem calculateDistance_eval (p q : HandLandmark) (c : ℚ) (h : sqDist p q = c ^ 2)
    (hc : 0 ≤ c) : GestureClassifier.calculateDistance p q = (c : ℚ) := by
  unfold GestureClassifier.calculateDistance
  rw [h]
  push_cast
  exact Real.sqrt_sq (by exact_mod_cast hc)

/-- C3: a hand observation without exactly 21 landmarks is rejected: the
single-hand classifier and the two-hand classifier both return `none`
(both are total functions, so no exception is possible). -/
theorem claim_C3_invalid_length_rejected :
    (∀ (now : Nat) (lm : List HandLandmark), lm.length ≠ 21 →
      GestureClassifier.classifyGesture now lm = none) ∧
    (∀ (now : Nat) (l r : List HandLandmark) (hd : Option (List Handedness)),
      l.length ≠ 21 ∨ r.length ≠ 21 →
      GestureClassifier.classifyTwoHandGesture now l r hd = none) := by
  constructor
  · intro now lm h
    unfold GestureClassifier.classifyGesture
    rw [if_pos h]
  · intro now l r hd h
    unfold GestureClassifier.classifyTwoHandGesture
    rw [if_pos h]

theorem claim_C3_invalid_length_rejected_witness :
    ([] : List HandLandmark).length ≠ 21 ∧
    GestureClassifier.classifyGesture 0 [] = none ∧
    GestureClassifier.classifyTwoHandGesture 0 [] [] none = none :=
  ⟨by decide, claim_C3_invalid_length_rejected.1 0 [] (by decide),
    claim_C3_invalid_length_rejected.2 0 [] [] none (Or.inl (by decide))⟩

/-- C10: in the current two-hand classifier, if either hand fails the
pinky-only pattern the function returns `null` before any later rule, and
consequently every non-`null` result requires both hands in the pinky-only
pose. -/
theorem claim_C10_pinky_gate :
    (∀ (now : Nat) (l r : List HandLandmark) (hd : Option (List Handedness)),
      ¬(GestureClassifier.pinkyOnlyHand l ∧ GestureClassifier.pinkyOnlyHand r) →
      GestureClassifier.classifyTwoHandGesture now l r hd = none) ∧
    (∀ (now : Nat) (l r : List HandLandmark) (hd : Option (List Handedness))
        (g : GestureDetection),
      GestureClassifier.classifyTwoHandGesture now l r hd = some g →
      GestureClassifier.pinkyOnlyHand l ∧ GestureClassifier.pinkyOnlyHand r) := by
  have base : ∀ (now : Nat) (l r : List HandLandmark) (hd : Option (List Handedness)),
      ¬(GestureClassifier.pinkyOnlyHand l ∧ GestureClassifier.pinkyOnlyHand r) →
      GestureClassifier.classifyTwoHandGesture now l r hd = none := by
    intro now l r hd h
    unfold GestureClassifier.classifyTwoHandGesture
    by_cases hlen : l.length ≠ 21 ∨ r.length ≠ 21
    · rw [if_pos hlen]
    · rw [if_neg hlen, if_pos h]
  refine ⟨base, ?_⟩
  intro now l r hd g hsome
  by_contra h
  rw [base now l r hd h] at hsome
  exact Option.noConfusion hsome

theorem claim_C10_pinky_gate_witness :
    ¬(GestureClassifier.pinkyOnlyHand zeroHand ∧ GestureClassifier.pinkyOnlyHand zeroHand) ∧
    GestureClassifier.classifyTwoHandGesture 0 zeroHand zeroHand none = none :=
  ⟨by decide, claim_C10_pinky_gate.1 0 zeroHand zeroHand none (by decide)⟩

/-- The length of one history push, below or at capacity. -/
theorem pushSample_length (h : List Hook.Sample) (s : Hook.Sample) (hle : h.length ≤ 30) :
    (Hook.pushSample h s).length = min (h.length + 1) 30 := by
  unfold Hook.pushSample
  by_cases hfull : h.length = 30
  · rw [if_pos (by simp [hfull])]
    simp [hfull]
  · have hlt : h.length < 30 := lt_of_le_of_ne hle hfull
    rw [if_neg (by simp; omega)]
    simp
    omega

/-- C9: the per-label history is a capacity-30 ring: one sample is appended
per observed frame, the oldest entry is evicted when the buffer would exceed
30, the bound is preserved by every step, and a run from the empty history
holds exactly `min (number of frames) 30` samples. -/
theorem claim_C9_history_ring :
    (∀ (h : List Hook.Sample) (s : Hook.Sample), h.length ≤ 30 →
      (Hook.pushSample h s).length ≤ 30) ∧
    (∀ (h : List Hook.Sample) (s : Hook.Sample), h.length < 30 →
      Hook.pushSample h s = h ++ [s]) ∧
    (∀ (h : List Hook.Sample) (s : Hook.Sample), h.length = 30 →
      Hook.pushSample h s = h.tail ++ [s]) ∧
    (∀ samples : List Hook.Sample, (Hook.runHistory samples).length = min samples.length 30) := by
  have hgen : ∀ (samples : List Hook.Sample) (h : List Hook.Sample), h.length ≤ 30 →
      (samples.foldl Hook.pushSample h).length = min (h.length + samples.length) 30 := by
    intro samples
    induction samples with
    | nil => intro h hle; simpa using by omega
    | cons s ss ih =>
        intro h hle
        have hstep := pushSample_length h s hle
        have hstep_le : (Hook.pushSample h s).length ≤ 30 := by omega
        simp only [List.foldl_cons]
        rw [ih _ hstep_le, hstep]
        simp [List.length_cons]
        omega
  refine ⟨?_, ?_, ?_, ?_⟩
  · intro h s hle
    rw [pushSample_length h s hle]
    omega
  · intro h s hlt
    unfold Hook.pushSample
    rw [if_neg (by simp; omega)]
  · intro h s h30
    unfold Hook.pushSample
    rw [if_pos (by simp [h30])]
    match h, h30 with
    | a :: t, _ => simp
  · intro samples
    unfold Hook.runHistory
    simpa using hgen samples [] (by simp)

/-- C5: a 21-landmark hand with all five digits counted extended is classified
`Open Palm` when the wrist is on the right half (`x ≥ 0.5`) and `Stop` when on
the left half (`x < 0.5`); the result is never `none` for such a hand. -/
theorem claim_C5_open_palm_stop_split :
    ∀ (now : Nat) (lm : List HandLandmark), lm.length = 21 →
      GestureClassifier.extendedCount lm = 5 →
      ((nth lm 0).x ≥ 0.5 →
        GestureClassifier.classifyGesture now lm = some ⟨"Open Palm", 0.95, now⟩) ∧
      ((nth lm 0).x < 0.5 →
        GestureClassifier.classifyGesture now lm = some ⟨"Stop", 0.95, now⟩) ∧
      GestureClassifier.classifyGesture now lm ≠ none := by
  intro now lm hlen hcount
  have h21 : ¬(lm.length ≠ 21) := by simp [hlen]
  have g1 : ¬(GestureClassifier.isThumbExtended lm ∧ GestureClassifier.extendedCount lm = 1) := by
    simp [hcount]
  have g2 : ¬((GestureClassifier.fingersExtended lm).getD 0 false = true ∧
      GestureClassifier.extendedCount lm = 1) := by
    simp [hcount]
  have g3 : ¬((GestureClassifier.fingersExtended lm).getD 0 false = true ∧
      (GestureClassifier.fingersExtended lm).getD 1 false = true ∧
      (GestureClassifier.fingersExtended lm).getD 2 false = false ∧
      (GestureClassifier.fingersExtended lm).getD 3 false = false ∧
      ¬GestureClassifier.isThumbExtended lm ∧ GestureClassifier.extendedCount lm = 2) := by
    simp [hcount]
  have openPalmEq : (nth lm 0).x ≥ 0.5 →
      GestureClassifier.classifyGesture now lm = some ⟨"Open Palm", 0.95, now⟩ := by
    intro hx
    unfold GestureClassifier.classifyGesture
    rw [if_neg h21, if_neg g1, if_neg g2, if_neg g3, if_pos ⟨hcount, hx⟩]
  have stopEq : (nth lm 0).x < 0.5 →
      GestureClassifier.classifyGesture now lm = some ⟨"Stop", 0.95, now⟩ := by
    intro hx
    have g4 : ¬(GestureClassifier.extendedCount lm = 5 ∧ (nth lm 0).x ≥ 0.5) := by
      rintro ⟨-, hge⟩
      exact absurd hx (not_lt.mpr hge)
    unfold GestureClassifier.classifyGesture
    rw [if_neg h21, if_neg g1, if_neg g2, if_neg g3, if_neg g4, if_pos ⟨hcount, hx⟩]
  refine ⟨openPalmEq, stopEq, ?_⟩
  rcases lt_or_le (nth lm 0).x 0.5 with hx | hx
  · rw [stopEq hx]; exact Option.noConfusion
  · rw [openPalmEq hx]; exact Option.noConfusion

theorem openPalmHand_thumbExtended : GestureClassifier.isThumbExtended openPalmHand :=
  (isThumbExtended_iff openPalmHand).mpr (by norm_num [sqDist, nth, openPalmHand])

theorem openPalmHand_fingers :
    GestureClassifier.fingersExtended openPalmHand = [true, true, true, true] := by
  norm_num [GestureClassifier.fingersExtended, GestureClassifier.isFingerExtended,
    nth, openPalmHand]

theorem openPalmHand_extendedCount : GestureClassifier.extendedCount openPalmHand = 5 := by
  unfold GestureClassifier.extendedCount
  rw [if_pos openPalmHand_thumbExtended, openPalmHand_fingers]
  rfl

theorem claim_C5_open_palm_stop_split_witness :
    openPalmHand.length = 21 ∧ GestureClassifier.extendedCount openPalmHand = 5 ∧
    (nth openPalmHand 0).x ≥ 0.5 ∧
    GestureClassifier.classifyGesture 7 openPalmHand = some ⟨"Open Palm", 0.95, 7⟩ :=
  ⟨by decide, openPalmHand_extendedCount, by norm_num [nth, openPalmHand],
    (claim_C5_open_palm_stop_split 7 openPalmHand (by decide) openPalmHand_extendedCount).1
      (by norm_num [nth, openPalmHand])⟩

/-- The concrete open palm evaluates through the classifier (used to feed the
wave-upgrade witness without invoking any claim theorem). -/
theorem openPalmHand_classify :
    GestureClassifier.classifyGesture 7 openPalmHand = some ⟨"Open Palm", 0.95, 7⟩ := by
  have hcount := openPalmHand_extendedCount
  unfold GestureClassifier.classifyGesture
  rw [if_neg (by decide : ¬(openPalmHand.length ≠ 21)),
    if_neg (by simp [hcount] :
      ¬(GestureClassifier.isThumbExtended openPalmHand ∧
        GestureClassifier.extendedCount openPalmHand = 1)),
    if_neg (by simp [hcount] :
      ¬((GestureClassifier.fingersExtended openPalmHand).getD 0 false = true ∧
        GestureClassifier.extendedCount openPalmHand = 1)),
    if_neg (by simp [hcount] :
      ¬((GestureClassifier.fingersExtended openPalmHand).getD 0 false = true ∧
        (GestureClassifier.fingersExtended openPalmHand).getD 1 false = true ∧
        (GestureClassifier.fingersExtended openPalmHand).getD 2 false = false ∧
        (GestureClassifier.fingersExtended openPalmHand).getD 3 false = false ∧
        ¬GestureClassifier.isThumbExtended openPalmHand ∧
        GestureClassifier.extendedCount openPalmHand = 2)),
    if_pos ⟨hcount, by norm_num [nth, openPalmHand]⟩]

/-- C7: a frame whose static classification is `Open Palm`, with a wrist-x
history showing at least two direction reversals and a peak-to-peak amplitude
above the 0.06 threshold, produces the candidate `Wave`, not `Open Palm`. -/
theorem claim_C7_wave_upgrade :
    ∀ (now : Nat) (hist : List Hook.Sample) (lm : List HandLandmark) (g : GestureDetection),
      GestureClassifier.classifyGesture now lm = some g →
      g.gesture = "Open Palm" →
      2 ≤ Hook.countReversals (hist.map fun h => h.wrist.x) →
      Hook.amplitude (hist.map fun h => h.wrist.x) > 0.06 →
      Hook.singleHandCandidate now hist lm = some ⟨"Wave", 0.92, now⟩ := by
  intro now hist lm g hclass hg hrev hamp
  unfold Hook.singleHandCandidate
  rw [hclass]
  simp only [hg, if_pos rfl]
  exact if_pos (And.intro hrev hamp)

theorem claim_C7_wave_upgrade_witness :
    GestureClassifier.classifyGesture 7 openPalmHand = some ⟨"Open Palm", 0.95, 7⟩ ∧
    2 ≤ Hook.countReversals (waveHist.map fun h => h.wrist.x) ∧
    Hook.amplitude (waveHist.map fun h => h.wrist.x) > 0.06 ∧
    Hook.singleHandCandidate 7 waveHist openPalmHand = some ⟨"Wave", 0.92, 7⟩ :=
  ⟨openPalmHand_classify, by norm_num [Hook.countReversals, waveHist],
    by norm_num [Hook.amplitude, waveHist],
    claim_C7_wave_upgrade 7 waveHist openPalmHand _ openPalmHand_classify rfl
      (by norm_num [Hook.countReversals, waveHist]) (by norm_num [Hook.amplitude, waveHist])⟩

theorem nth_replicate {p : HandLandmark} {n i : Nat} (h : i < n) :
    nth (List.replicate n p) i = p := by
  unfold nth
  rw [List.getD_eq_getElem?_getD, List.getElem?_replicate, if_pos h, Option.getD_some]

/-- The hook's palm-center records carry no `z`, so the palm-to-palm
"distance" the hook computes is `NaN` (`none`) on every input. -/
theorem palmDist_eq_none (a b : List HandLandmark) : Hook.palmDist a b = none := rfl

/-- The clap guard compares the `NaN` palm distance against 0.12, which is
false in JS, so the guard can never hold. -/
theorem clapCond_never (now : Nat) (a b : List HandLandmark) (ah bh : List Hook.Sample)
    (lastAudioClap : Nat) (audioAttached : Bool) :
    ¬Hook.clapCond now a b ah bh lastAudioClap audioAttached := by
  intro h
  have h4 := h.2.2.2.1
  rw [palmDist_eq_none a b] at h4
  simp [Hook.jsLt] at h4

/-- The hook's namaste guard starts with the same `NaN` palm-distance
comparison, so it can never hold either. -/
theorem namasteCond_never (a b : List HandLandmark) : ¬Hook.namasteCond a b := by
  intro h
  have h1 := h.1
  rw [palmDist_eq_none a b] at h1
  simp [Hook.jsLt] at h1

/-- C6 (code bug): the claim says rapid palm closure (0.30 → 0.08 with no
audio source) yields a `Clap` candidate; in the code the 2-D palm centers
are passed through the 3-D `distance`, whose `z` subtraction on `undefined`
gives `NaN`, every `NaN` comparison is false, and therefore the two-hand
processing can never produce a `Clap` — in particular the claim's own
example input produces no candidate at all. -/
theorem claim_C6_clap_dead_code :
    (∀ (now lastAudioClap : Nat) (audioAttached : Bool) (a b : List HandLandmark)
        (ah bh : List Hook.Sample) (g : GestureDetection),
      Hook.twoHandCandidate now a b ah bh lastAudioClap audioAttached = some g →
      g.gesture ≠ "Clap") ∧
    Hook.twoHandCandidate 1000 clapA clapB clapAh clapBh 0 false = none := by
  constructor
  · intro now lac att a b ah bh g h
    unfold Hook.twoHandCandidate at h
    rw [if_neg (clapCond_never now a b ah bh lac att)] at h
    split_ifs at h
    all_goals (cases h; simp)
  · unfold Hook.twoHandCandidate
    rw [if_neg (clapCond_never 1000 clapA clapB clapAh clapBh 0 false),
      if_neg (namasteCond_never clapA clapB),
      if_neg (show ¬Hook.crossCond clapA clapB by
        unfold Hook.crossCond clapA clapB
        rw [nth_replicate (by norm_num), nth_replicate (by norm_num)]
        norm_num),
      if_neg (show ¬(Hook.raisedCond clapA ∧ Hook.raisedCond clapB) by
        rintro ⟨hA, -⟩
        unfold Hook.raisedCond clapA at hA
        rw [nth_replicate (by norm_num), nth_replicate (by norm_num)] at hA
        norm_num at hA)]

/-- The crossed pair evaluates to a `Cross Hands` candidate (used to witness
that the only two-hand candidates ever produced are non-`Clap` ones). -/
theorem crossPair_eval :
    Hook.twoHandCandidate 3 crossA crossB [] [] 0 false = some ⟨"Cross Hands", 0.9, 3⟩ := by
  unfold Hook.twoHandCandidate
  rw [if_neg (clapCond_never 3 crossA crossB [] [] 0 false),
    if_neg (namasteCond_never crossA crossB),
    if_pos (show Hook.crossCond crossA crossB by
      unfold Hook.crossCond crossA crossB
      rw [nth_replicate (by norm_num), nth_replicate (by norm_num)]
      norm_num)]

theorem claim_C6_clap_dead_code_witness :
    Hook.twoHandCandidate 3 crossA crossB [] [] 0 false =
      some ⟨"Cross Hands", 0.9, 3⟩ ∧
    (⟨"Cross Hands", 0.9, 3⟩ : GestureDetection).gesture ≠ "Clap" :=
  ⟨crossPair_eval,
    claim_C6_clap_dead_code.1 3 0 false crossA crossB [] [] _ crossPair_eval⟩

/-- C8: when no earlier two-hand rule (clap, namaste, cross hands) matched, a
`Raise Both Hands` candidate is produced exactly when each hand's wrist `y`
is less than its own middle-knuckle `y` by the 0.02 margin. -/
theorem claim_C8_raise_both :
    ∀ (now lastAudioClap : Nat) (audioAttached : Bool) (a b : List HandLandmark)
      (ah bh : List Hook.Sample),
      a.length = 21 → b.length = 21 →
      ¬Hook.clapCond now a b ah bh lastAudioClap audioAttached →
      ¬Hook.namasteCond a b →
      ¬Hook.crossCond a b →
      (Hook.twoHandCandidate now a b ah bh lastAudioClap audioAttached =
          some ⟨"Raise Both Hands", 0.9, now⟩ ↔
        (Hook.raisedCond a ∧ Hook.raisedCond b)) := by
  intro now lac att a b ah bh hla hlb hclap hnam hcross
  unfold Hook.twoHandCandidate
  rw [if_neg hclap, if_neg hnam, if_neg hcross]
  by_cases hr : Hook.raisedCond a ∧ Hook.raisedCond b
  · rw [if_pos hr]
    simp [hr]
  · rw [if_neg hr]
    simp [hr]

theorem claim_C8_raise_both_witness :
    raiseA.length = 21 ∧ raiseB.length = 21 ∧
    ¬Hook.crossCond raiseA raiseB ∧
    Hook.raisedCond raiseA ∧ Hook.raisedCond raiseB ∧
    Hook.twoHandCandidate 5 raiseA raiseB [] [] 0 true =
      some ⟨"Raise Both Hands", 0.9, 5⟩ := by
  have hcross : ¬Hook.crossCond raiseA raiseB := by
    unfold Hook.crossCond raiseA raiseB nth
    norm_num
  have hrA : Hook.raisedCond raiseA := by
    unfold Hook.raisedCond raiseA nth
    norm_num
  have hrB : Hook.raisedCond raiseB := by
    unfold Hook.raisedCond raiseB nth
    norm_num
  refine ⟨by decide, by decide, hcross, hrA, hrB, ?_⟩
  exact (claim_C8_raise_both 5 0 true raiseA raiseB [] [] (by decide) (by decide)
    (clapCond_never 5 raiseA raiseB [] [] 0 true) (namasteCond_never raiseA raiseB)
    hcross).mpr ⟨hrA, hrB⟩

theorem claim_C9_history_ring_witness :
    (List.replicate 30 (default : Hook.Sample)).length = 30 ∧
    Hook.pushSample (List.replicate 30 default) default =
      (List.replicate 30 (default : Hook.Sample)).tail ++ [default] ∧
    ((List.replicate 5 (default : Hook.Sample)).foldl Hook.pushSample []).length = 5 :=
  ⟨by simp, claim_C9_history_ring.2.2.1 (List.replicate 30 default) default (by simp),
    by simpa using claim_C9_history_ring.2.2.2 (List.replicate 5 default)⟩
namespace Hook

theorem advanceTo_idle (cool : Nat) (lg : String) (t : Nat) :
    advanceTo cool ⟨lg, none, []⟩ t = (⟨lg, none, []⟩, []) := by
  simp [advanceTo, fireAux, minDue]

theorem advanceTo_pending_notdue (cool : Nat) (lg : String) (f t : Nat) (g : String)
    (h : t < f) : advanceTo cool ⟨lg, some (f, g), []⟩ t = (⟨lg, some (f, g), []⟩, []) := by
  simp [advanceTo, fireAux, minDue, Nat.not_le.mpr h]

theorem advanceTo_pending_fire (cool : Nat) (lg : String) (f t : Nat) (g : String)
    (h1 : f ≤ t) (h2 : t < f + cool) :
    advanceTo cool ⟨lg, some (f, g), []⟩ t = (⟨g, none, [f + cool]⟩, [(f, g)]) := by
  simp [advanceTo, fireAux, minDue, h1, Nat.not_le.mpr h2]

theorem advanceTo_pending_fire_reset (cool : Nat) (lg : String) (f t : Nat) (g : String)
    (h1 : f ≤ t) (h2 : f + cool ≤ t) :
    advanceTo cool ⟨lg, some (f, g), []⟩ t = (⟨"", none, []⟩, [(f, g)]) := by
  simp [advanceTo, fireAux, minDue, h1, h2]

theorem advanceTo_reset_notdue (cool : Nat) (lg : String) (r t : Nat) (h : t < r) :
    advanceTo cool ⟨lg, none, [r]⟩ t = (⟨lg, none, [r]⟩, []) := by
  simp [advanceTo, fireAux, minDue, Nat.not_le.mpr h]

theorem advanceTo_reset_fire (cool : Nat) (lg : String) (r t : Nat) (h : r ≤ t) :
    advanceTo cool ⟨lg, none, [r]⟩ t = (⟨"", none, []⟩, []) := by
  simp [advanceTo, fireAux, minDue, h]

end Hook
namespace Hook

theorem runFrames_append (stab cool : Nat) (s : DState) (l1 l2 : List (Nat × Option String)) :
    runFrames stab cool s (l1 ++ l2) =
      ((runFrames stab cool (runFrames stab cool s l1).1 l2).1,
        (runFrames stab cool s l1).2 ++ (runFrames stab cool (runFrames stab cool s l1).1 l2).2) := by
  induction l1 generalizing s with
  | nil => simp [runFrames]
  | cons fr rest ih =>
      simp only [List.cons_append, runFrames]
      simp only [List.append_eq]
      rw [ih]
      simp [List.append_assoc]

theorem runFrames_sustained (stab cool : Nat) (g : String) (hg : g ≠ "") :
    ∀ (ts : List Nat) (tp : Nat),
      List.Chain (fun a b => a < b ∧ b < a + stab) tp ts →
      runFrames stab cool ⟨"", some (tp + stab, g), []⟩ (ts.map fun t => (t, some g)) =
        (⟨"", some (ts.getLastD tp + stab, g), []⟩, []) := by
  intro ts
  induction ts with
  | nil => intro tp _; simp [runFrames]
  | cons t ts' ih =>
      intro tp hch
      rcases List.chain_cons.mp hch with ⟨⟨h1, h2⟩, hch'⟩
      simp only [List.map_cons, runFrames, frameStep,
        advanceTo_pending_notdue cool "" (tp + stab) t g h2]
      rw [if_pos hg]
      rw [ih t hch']
      rw [List.getLastD_cons]
      rfl

theorem runFrames_cooldown (stab cool : Nat) (g : String) (e : Nat) :
    ∀ (ms : List Nat), (∀ m ∈ ms, m < e + cool) →
      runFrames stab cool ⟨g, none, [e + cool]⟩ (ms.map fun t => (t, some g)) =
        (⟨g, none, [e + cool]⟩, []) := by
  intro ms
  induction ms with
  | nil => intro _; simp [runFrames]
  | cons m ms' ih =>
      intro hb
      have hm : m < e + cool := hb m (List.mem_cons_self m ms')
      simp only [List.map_cons, runFrames, frameStep,
        advanceTo_reset_notdue cool g (e + cool) m hm]
      rw [if_neg (by simp)]
      rw [ih fun x hx => hb x (List.mem_cons_of_mem m hx)]
      rfl

/-- C1 (amended): each frame whose candidate differs from the last-emitted
label restarts the stability timer, so a label sustained on frames spaced
closer than the stability window emits nothing while the frames keep coming
and emits exactly once, one stability window after the last such frame; and
a candidate interrupted by a differing candidate before its timer fires is
never emitted. -/
theorem claim_C1_amended :
    ∀ (stab cool : Nat), 1 ≤ stab → 1 ≤ cool →
    (∀ (g : String), g ≠ "" → ∀ (t0 : Nat) (ts : List Nat),
      List.Chain (fun a b => a < b ∧ b < a + stab) t0 ts →
      runFrames stab cool initState ((t0 :: ts).map fun t => (t, some g)) =
        (⟨"", some (ts.getLastD t0 + stab, g), []⟩, []) ∧
      debounceRun stab cool ((t0 :: ts).map fun t => (t, some g)) (ts.getLastD t0 + stab) =
        [(ts.getLastD t0 + stab, g)]) ∧
    (∀ (g h : String) (t0 t1 : Nat), g ≠ "" → h ≠ "" → h ≠ g → t0 < t1 → t1 < t0 + stab →
      ∀ (T : Nat) (e : Nat × String),
        e ∈ debounceRun stab cool [(t0, some g), (t1, some h)] T → e.2 ≠ g) := by
  intro stab cool hstab hcool
  constructor
  · intro g hg t0 ts hch
    set L := ts.getLastD t0 with hL
    have hrun : runFrames stab cool initState ((t0, some g) :: (ts.map fun t => (t, some g))) =
        (⟨"", some (L + stab, g), []⟩, []) := by
      simp only [runFrames, frameStep, initState, advanceTo_idle cool "" t0]
      rw [if_pos hg]
      rw [runFrames_sustained stab cool g hg ts t0 hch]
      rfl
    constructor
    · simpa using hrun
    · simp [debounceRun, hrun,
        advanceTo_pending_fire cool "" (L + stab) (L + stab) g le_rfl (by omega)]
  · intro g h t0 t1 hg hh hne hlt hwin T e hmem
    have hrun : runFrames stab cool initState [(t0, some g), (t1, some h)] =
        (⟨"", some (t1 + stab, h), []⟩, []) := by
      simp only [runFrames, frameStep, initState, advanceTo_idle cool "" t0]
      rw [if_pos hg]
      simp only [advanceTo_pending_notdue cool "" (t0 + stab) t1 g hwin]
      rw [if_pos hh]
      rfl
    rcases Nat.lt_or_ge T (t1 + stab) with hT | hT
    · simp [debounceRun, hrun, advanceTo_pending_notdue cool "" (t1 + stab) T h hT] at hmem
    · rcases Nat.lt_or_ge T (t1 + stab + cool) with hT2 | hT2
      · simp [debounceRun, hrun,
          advanceTo_pending_fire cool "" (t1 + stab) T h hT hT2] at hmem
        rw [hmem]
        exact hne
      · simp [debounceRun, hrun,
          advanceTo_pending_fire_reset cool "" (t1 + stab) T h hT hT2] at hmem
        rw [hmem]
        exact hne

/-- C1 (counterexample to the claim as stated): the label "Open Palm" is
produced on every frame from 0 ms to 200 ms (five frames, 50 ms apart —
longer than the 150 ms stability window, with no differing candidate), yet
no gesture event has been emitted by 200 ms: each frame restarted the
stability timer. -/
theorem claim_C1_counterexample :
    debounceRun 150 1800
      [(0, some "Open Palm"), (50, some "Open Palm"), (100, some "Open Palm"),
        (150, some "Open Palm"), (200, some "Open Palm")] 200 = [] := by
  decide

theorem claim_C1_amended_witness :
    ("A" : String) ≠ "" ∧
    List.Chain (fun a b => a < b ∧ b < a + 150) 0 [50, 100] ∧
    debounceRun 150 1800 [(0, some "A"), (50, some "A"), (100, some "A")] 250 = [(250, "A")] ∧
    ((250, "B") ∈ debounceRun 150 1800 [(0, some "A"), (100, some "B")] 1000 →
      ("B" : String) ≠ "A") :=
  ⟨by decide, by norm_num [List.chain_cons],
    by
      have := ((claim_C1_amended 150 1800 (by decide) (by decide)).1 "A" (by decide)
        0 [50, 100] (by norm_num [List.chain_cons])).2
      simpa using this,
    fun hmem => (claim_C1_amended 150 1800 (by decide) (by decide)).2 "A" "B" 0 100
      (by decide) (by decide) (by decide) (by decide) (by decide) 1000 (250, "B") hmem⟩

/-- C2: after one emission, frames carrying the same label inside the
cooldown window produce no further event (exactly one event for the held
gesture), and once the cooldown reset has fired the same label can be
emitted again. -/
theorem claim_C2_cooldown_idempotence :
    ∀ (stab cool : Nat), 1 ≤ stab → 1 ≤ cool → ∀ (g : String), g ≠ "" →
    ∀ (t0 : Nat) (mids : List Nat) (u : Nat),
      (∀ m ∈ mids, t0 + stab ≤ m ∧ m < t0 + stab + cool) →
      t0 + stab + cool ≤ u →
      debounceRun stab cool
        ((t0, some g) :: ((mids.map fun t => (t, some g)) ++ [(u, some g)])) (u + stab) =
        [(t0 + stab, g), (u + stab, g)] := by
  intro stab cool hstab hcool g hg t0 mids u hmid hu
  by_cases hnil : mids = []
  · subst hnil
    simp only [List.map_nil, List.nil_append]
    simp [debounceRun, runFrames, frameStep, initState,
      advanceTo_idle cool "" t0,
      advanceTo_pending_fire_reset cool "" (t0 + stab) u g (by omega) hu,
      advanceTo_pending_fire cool "" (u + stab) (u + stab) g le_rfl (by omega),
      hg]
  · obtain ⟨m, ms, rfl⟩ : ∃ m ms, mids = m :: ms := by
      cases mids with
      | nil => exact absurd rfl hnil
      | cons m ms => exact ⟨m, ms, rfl⟩
    have hm := hmid m (List.mem_cons_self m ms)
    simp only [List.map_cons, List.cons_append]
    simp [debounceRun, runFrames_append, runFrames, frameStep, initState,
      advanceTo_idle cool "" t0,
      advanceTo_pending_fire cool "" (t0 + stab) m g hm.1 hm.2,
      runFrames_cooldown stab cool g (t0 + stab) ms
        (fun x hx => (hmid x (List.mem_cons_of_mem m hx)).2),
      advanceTo_reset_fire cool g (t0 + stab + cool) u hu,
      advanceTo_pending_fire cool "" (u + stab) (u + stab) g le_rfl (by omega),
      hg]

theorem claim_C2_cooldown_idempotence_witness :
    (∀ m ∈ [200, 800, 1900], 0 + 150 ≤ m ∧ m < 0 + 150 + 1800) ∧
    0 + 150 + 1800 ≤ 1950 ∧
    debounceRun 150 1800
      ((0, some "A") :: (([200, 800, 1900].map fun t => (t, some "A")) ++ [(1950, some "A")]))
      (1950 + 150) = [(0 + 150, "A"), (1950 + 150, "A")] :=
  ⟨by decide, by decide,
    claim_C2_cooldown_idempotence 150 1800 (by decide) (by decide) "A" (by decide)
      0 [200, 800, 1900] 1950 (by decide) (by decide)⟩

end Hook
namespace GestureClassifierP5

open GestureClassifier (calculateDistance)

theorem nth_scaleHand (s : ℚ) (lm : List HandLandmark) (i : Nat) :
    nth (scaleHand s lm) i =
      ⟨s * (nth lm i).x, s * (nth lm i).y, s * (nth lm i).z⟩ := by
  unfold nth scaleHand
  rw [List.getD_eq_getElem?_getD, List.getD_eq_getElem?_getD, List.getElem?_map]
  cases h : lm[i]? with
  | none => simp
  | some p => simp

theorem sqDist_smul (s : ℚ) (p q : HandLandmark) :
    sqDist ⟨s * p.x, s * p.y, s * p.z⟩ ⟨s * q.x, s * q.y, s * q.z⟩ = s ^ 2 * sqDist p q := by
  unfold sqDist
  ring

theorem calculateDistance_scale (s : ℚ) (hs : 0 ≤ s) (lm : List HandLandmark) (i j : Nat) :
    calculateDistance (nth (scaleHand s lm) i) (nth (scaleHand s lm) j) =
      (s : ℝ) * calculateDistance (nth lm i) (nth lm j) := by
  rw [nth_scaleHand, nth_scaleHand]
  unfold GestureClassifier.calculateDistance
  rw [sqDist_smul]
  push_cast
  rw [Real.sqrt_mul (by positivity) _, Real.sqrt_sq (by exact_mod_cast hs)]

theorem calculateDistance_pos_of_sqDist_ne (lm : List HandLandmark) (i j : Nat)
    (h : sqDist (nth lm i) (nth lm j) ≠ 0) :
    0 < calculateDistance (nth lm i) (nth lm j) := by
  unfold GestureClassifier.calculateDistance
  apply Real.sqrt_pos.mpr
  have h0 : 0 ≤ sqDist (nth lm i) (nth lm j) := sqDist_nonneg _ _
  have : 0 < sqDist (nth lm i) (nth lm j) := lt_of_le_of_ne h0 (Ne.symm h)
  exact_mod_cast this

theorem handWidth_scale (s : ℚ) (hs : 0 < s) (lm : List HandLandmark)
    (hspan : sqDist (nth lm 5) (nth lm 17) ≠ 0) :
    handWidth (scaleHand s lm) = (s : ℝ) * handWidth lm := by
  have hpos := calculateDistance_pos_of_sqDist_ne lm 5 17 hspan
  unfold handWidth
  rw [calculateDistance_scale s hs.le]
  rw [if_neg (by positivity), if_neg (ne_of_gt hpos)]

theorem handWidth_pos (lm : List HandLandmark)
    (hspan : sqDist (nth lm 5) (nth lm 17) ≠ 0) : 0 < handWidth lm := by
  have hpos := calculateDistance_pos_of_sqDist_ne lm 5 17 hspan
  unfold handWidth
  rw [if_neg (ne_of_gt hpos)]
  exact hpos

theorem avgTipToPalm_scale (s : ℚ) (hs : 0 ≤ s) (lm : List HandLandmark) :
    avgTipToPalm (scaleHand s lm) = (s : ℝ) * avgTipToPalm lm := by
  unfold avgTipToPalm tipDistances
  simp only [List.map_cons, List.map_nil, calculateDistance_scale s hs,
    List.sum_cons, List.sum_nil, List.length_cons, List.length_nil]
  ring

theorem foldl_max_smul (s : ℝ) (hs : 0 ≤ s) :
    ∀ (l : List ℝ) (a : ℝ), (l.map fun x => s * x).foldl max (s * a) = s * l.foldl max a := by
  intro l
  induction l with
  | nil => intro a; simp
  | cons x xs ih =>
      intro a
      simp only [List.map_cons, List.foldl_cons]
      rw [← mul_max_of_nonneg _ _ hs, ih]

theorem maxTipSpread_scale (s : ℚ) (hs : 0 ≤ s) (lm : List HandLandmark) :
    maxTipSpread (scaleHand s lm) = (s : ℝ) * maxTipSpread lm := by
  unfold maxTipSpread
  have hmap :
      (tipPairs.map fun ij =>
        calculateDistance (nth (scaleHand s lm) ij.1) (nth (scaleHand s lm) ij.2)) =
      (tipPairs.map fun ij => calculateDistance (nth lm ij.1) (nth lm ij.2)).map
        fun x => (s : ℝ) * x := by
    rw [List.map_map]
    exact List.map_congr_left fun ij _ => calculateDistance_scale s hs lm ij.1 ij.2
  rw [hmap]
  have := foldl_max_smul (s : ℝ) (by exact_mod_cast hs)
    (tipPairs.map fun ij => calculateDistance (nth lm ij.1) (nth lm ij.2)) 0
  simpa using this

theorem avgTipToPalmNorm_scale (s : ℚ) (hs : 0 < s) (lm : List HandLandmark)
    (hspan : sqDist (nth lm 5) (nth lm 17) ≠ 0) :
    avgTipToPalmNorm (scaleHand s lm) = avgTipToPalmNorm lm := by
  unfold avgTipToPalmNorm
  rw [avgTipToPalm_scale s hs.le, handWidth_scale s hs lm hspan,
    mul_div_mul_left _ _ (by exact_mod_cast hs.ne' : (s : ℝ) ≠ 0)]

theorem maxTipSpreadNorm_scale (s : ℚ) (hs : 0 < s) (lm : List HandLandmark)
    (hspan : sqDist (nth lm 5) (nth lm 17) ≠ 0) :
    maxTipSpreadNorm (scaleHand s lm) = maxTipSpreadNorm lm := by
  unfold maxTipSpreadNorm
  rw [maxTipSpread_scale s hs.le, handWidth_scale s hs lm hspan,
    mul_div_mul_left _ _ (by exact_mod_cast hs.ne' : (s : ℝ) ≠ 0)]

theorem curledCount_eq_five (lm : List HandLandmark)
    (hcurl : ∀ tp ∈ ([(4, 2), (8, 6), (12, 10), (16, 14), (20, 18)] : List (Nat × Nat)),
      (nth lm tp.2).y - 0.01 ≤ (nth lm tp.1).y) :
    curledCount lm = 5 := by
  unfold curledCount
  have hz : ([4, 8, 12, 16, 20] : List Nat).zip [2, 6, 10, 14, 18] =
      [(4, 2), (8, 6), (12, 10), (16, 14), (20, 18)] := rfl
  rw [hz, List.filter_eq_self.mpr, List.length_cons, List.length_cons, List.length_cons,
    List.length_cons, List.length_cons, List.length_nil]
  intro tp htp
  simp only [decide_eq_true_eq, ge_iff_le]
  exact hcurl tp htp

theorem foldl_max_lt (c : ℝ) :
    ∀ (l : List ℝ) (a : ℝ), a < c → (∀ x ∈ l, x < c) → l.foldl max a < c := by
  intro l
  induction l with
  | nil => intro a ha _; simpa using ha
  | cons x xs ih =>
      intro a ha hl
      simp only [List.foldl_cons]
      exact ih (max a x) (max_lt ha (hl x (List.mem_cons_self x xs)))
        fun y hy => hl y (List.mem_cons_of_mem x hy)

theorem calculateDistance_lt (p q : HandLandmark) (c : ℚ) (hc : 0 < c)
    (h : sqDist p q < c ^ 2) : calculateDistance p q < (c : ℚ) := by
  unfold GestureClassifier.calculateDistance
  rw [Real.sqrt_lt' (by exact_mod_cast hc)]
  exact_mod_cast h

/-- Any hand passing the three Fist guards classifies as Fist (the Fist rule
is the first rule after the length check). -/
theorem classify_fist_of (now : Nat) (lm : List HandLandmark) (hlen : lm.length = 21)
    (hc : curledCount lm ≥ 4) (havg : avgTipToPalmNorm lm < 0.6)
    (hsp : maxTipSpreadNorm lm < 0.45) :
    classifyGesture now lm = some ⟨"Fist", 0.96, now⟩ := by
  unfold classifyGesture
  rw [if_neg (by simp [hlen]), if_pos ⟨hc, havg, hsp⟩]

/-- C4: a 21-landmark hand with all five digits curled (each tip at or below
its proximal joint), a nonzero knuckle span, and the span-normalized
compactness and spread metrics below their thresholds classifies as `Fist`,
and so does every uniform positive rescaling of it (the normalization divides
out the scale). -/
theorem claim_C4_fist_scale_invariant :
    ∀ (now : Nat) (lm : List HandLandmark),
      lm.length = 21 →
      sqDist (nth lm 5) (nth lm 17) ≠ 0 →
      (∀ tp ∈ ([(4, 2), (8, 6), (12, 10), (16, 14), (20, 18)] : List (Nat × Nat)),
        (nth lm tp.2).y ≤ (nth lm tp.1).y) →
      GestureClassifierP5.avgTipToPalmNorm lm < 0.6 →
      GestureClassifierP5.maxTipSpreadNorm lm < 0.45 →
      GestureClassifierP5.classifyGesture now lm = some ⟨"Fist", 0.96, now⟩ ∧
      (∀ s : ℚ, 0 < s →
        GestureClassifierP5.classifyGesture now (GestureClassifierP5.scaleHand s lm) =
          some ⟨"Fist", 0.96, now⟩) := by
  intro now lm hlen hspan hcurl havg hsp
  have hc5 : curledCount lm = 5 :=
    curledCount_eq_five lm fun tp htp => by
      have := hcurl tp htp
      linarith
  constructor
  · exact classify_fist_of now lm hlen (by omega) havg hsp
  · intro s hs
    have hlen' : (scaleHand s lm).length = 21 := by simp [scaleHand, hlen]
    have hc5' : curledCount (scaleHand s lm) = 5 := by
      apply curledCount_eq_five
      intro tp htp
      rw [nth_scaleHand, nth_scaleHand]
      have h1 := hcurl tp htp
      have h2 : s * (nth lm tp.2).y ≤ s * (nth lm tp.1).y :=
        mul_le_mul_of_nonneg_left h1 hs.le
      dsimp only
      linarith
    exact classify_fist_of now (scaleHand s lm) hlen' (by omega)
      (by rw [avgTipToPalmNorm_scale s hs lm hspan]; exact havg)
      (by rw [maxTipSpreadNorm_scale s hs lm hspan]; exact hsp)

theorem fistHand_handWidth : handWidth fistHand = ((0.2 : ℚ) : ℝ) := by
  unfold handWidth
  rw [calculateDistance_eval _ _ 0.2 (by norm_num [sqDist, nth, fistHand]) (by norm_num)]
  rw [if_neg (by push_cast; norm_num)]

theorem fistHand_avgNorm : avgTipToPalmNorm fistHand < 0.6 := by
  unfold avgTipToPalmNorm avgTipToPalm tipDistances
  rw [fistHand_handWidth]
  simp only [List.map_cons, List.map_nil, List.sum_cons, List.sum_nil,
    List.length_cons, List.length_nil]
  rw [calculateDistance_eval _ _ 0.02 (by norm_num [sqDist, nth, fistHand]) (by norm_num),
    calculateDistance_eval _ _ 0.02 (by norm_num [sqDist, nth, fistHand]) (by norm_num),
    calculateDistance_eval _ _ 0.03 (by norm_num [sqDist, nth, fistHand]) (by norm_num),
    calculateDistance_eval _ _ 0.03 (by norm_num [sqDist, nth, fistHand]) (by norm_num),
    calculateDistance_eval _ _ 0 (by norm_num [sqDist, nth, fistHand]) (by norm_num)]
  push_cast
  norm_num

theorem fistHand_spreadNorm : maxTipSpreadNorm fistHand < 0.45 := by
  unfold maxTipSpreadNorm maxTipSpread
  rw [fistHand_handWidth]
  rw [div_lt_iff₀ (by push_cast; norm_num)]
  have hbound : (0.45 : ℝ) * ((0.2 : ℚ) : ℝ) = ((0.09 : ℚ) : ℝ) := by
    push_cast
    norm_num
  rw [hbound]
  apply foldl_max_lt
  · push_cast
    norm_num
  · intro x hx
    simp only [tipPairs, List.map_cons, List.map_nil, List.mem_cons,
      List.not_mem_nil, or_false] at hx
    rcases hx with rfl | rfl | rfl | rfl | rfl | rfl | rfl | rfl | rfl | rfl <;>
      exact calculateDistance_lt _ _ 0.09 (by norm_num) (by norm_num [sqDist, nth, fistHand])

theorem claim_C4_fist_scale_invariant_witness :
    fistHand.length = 21 ∧
    sqDist (nth fistHand 5) (nth fistHand 17) ≠ 0 ∧
    (∀ tp ∈ ([(4, 2), (8, 6), (12, 10), (16, 14), (20, 18)] : List (Nat × Nat)),
      (nth fistHand tp.2).y ≤ (nth fistHand tp.1).y) ∧
    GestureClassifierP5.avgTipToPalmNorm fistHand < 0.6 ∧
    GestureClassifierP5.maxTipSpreadNorm fistHand < 0.45 ∧
    GestureClassifierP5.classifyGesture 9 fistHand = some ⟨"Fist", 0.96, 9⟩ ∧
    GestureClassifierP5.classifyGesture 9 (GestureClassifierP5.scaleHand 3 fistHand) =
      some ⟨"Fist", 0.96, 9⟩ := by
  have hlen : fistHand.length = 21 := by decide
  have hspan : sqDist (nth fistHand 5) (nth fistHand 17) ≠ 0 := by
    norm_num [sqDist, nth, fistHand]
  have hcurl : ∀ tp ∈ ([(4, 2), (8, 6), (12, 10), (16, 14), (20, 18)] : List (Nat × Nat)),
      (nth fistHand tp.2).y ≤ (nth fistHand tp.1).y := by
    norm_num [List.forall_mem_cons, nth, fistHand]
  obtain ⟨hbase, hscale⟩ := claim_C4_fist_scale_invariant 9 fistHand hlen hspan hcurl
    fistHand_avgNorm fistHand_spreadNorm
  exact ⟨hlen, hspan, hcurl, fistHand_avgNorm, fistHand_spreadNorm, hbase,
    hscale 3 (by norm_num)⟩

end GestureClassifierP5
